import Mathlib

/-!
Shallow embedding of `ppcls/arch/backbone/model_zoo/xception_deeplab.py`
(PaddleClas Xception-DeepLab backbone) and verification of its
natural-language specification.

Python values that flow through `check_data` are either ints or (nested)
lists, so they are embedded as the inductive `PyData`.  Layer modules are
embedded as configuration records capturing every constructor argument
that reaches the tensor framework; a block's `forward` is embedded as a
symbolic tensor-expression builder over the inductive `Tensor` type.
Fallible Python code (asserts, exceptions, dict lookups, attribute
access) is embedded in `Option`.
-/

/-- A Python value that is either an `int` or a (possibly nested) list,
as handled by `check_data`. -/
inductive PyData where
  | int : Int → PyData
  | list : List PyData → PyData

mutual

def PyData.decEq : (a b : PyData) → Decidable (a = b)
  | .int a, .int b =>
      if h : a = b then .isTrue (congrArg PyData.int h)
      else .isFalse (fun hh => h (PyData.int.inj hh))
  | .int _, .list _ => .isFalse PyData.noConfusion
  | .list _, .int _ => .isFalse PyData.noConfusion
  | .list xs, .list ys =>
      match PyData.listDecEq xs ys with
      | .isTrue h => .isTrue (congrArg PyData.list h)
      | .isFalse h => .isFalse (fun hh => h (PyData.list.inj hh))

def PyData.listDecEq : (xs ys : List PyData) → Decidable (xs = ys)
  | [], [] => .isTrue rfl
  | [], _ :: _ => .isFalse List.noConfusion
  | _ :: _, [] => .isFalse List.noConfusion
  | x :: xs, y :: ys =>
      match PyData.decEq x y with
      | .isFalse h1 => .isFalse (fun hh => by injection hh with a b; exact h1 a)
      | .isTrue h1 =>
          match PyData.listDecEq xs ys with
          | .isTrue h2 => .isTrue (by rw [h1, h2])
          | .isFalse h2 => .isFalse (fun hh => by injection hh with a b; exact h2 b)

end

instance : DecidableEq PyData := PyData.decEq

/-- Extract an int; a list where an int is required is a Python `TypeError`. -/
def PyData.asInt : PyData → Option Int
  | .int v => some v
  | .list _ => none

/-- Python `data[-1]` on a list, required to be an int. -/
def PyData.lastInt : PyData → Option Int
  | .int _ => none
  | .list xs => xs.getLast?.bind PyData.asInt

/-- Python `xs[i]` on a list of `PyData`, required to be an int. -/
def getI (xs : List PyData) (i : Nat) : Option Int :=
  xs[i]?.bind PyData.asInt

/-- Python `d[i]` on a `PyData` that must be a list. -/
def PyData.get (d : PyData) (i : Nat) : Option PyData :=
  match d with
  | .int _ => none
  | .list xs => xs[i]?

/-- Embedding of `check_data(data, number)` (line 30): an int is broadcast to
`[data] * number`; a list must have length exactly `number` (the
`assert` is embedded as `none`). -/
def check_data (data : PyData) (number : Nat) : Option (List PyData) :=
  match data with
  | .int v => some (List.replicate number (.int v))
  | .list xs => if xs.length = number then some xs else none

/-- Embedding of `check_stride(s, os)` (line 37). -/
def check_stride (s os : Int) : Bool :=
  if s ≤ os then true else false

/-- The stride-clipping expression used at every block site (lines 308,
329, 349, 356): `strides[i] if check_stride(s * strides[i], output_stride)
else 1`. -/
def clip_stride (s st os : Int) : Int :=
  if check_stride (s * st) os then st else 1

/-- Configuration of a `paddle.nn.Conv2D` as instantiated in this file. -/
structure Conv2DCfg where
  in_channels : Int
  out_channels : Int
  kernel_size : Int
  stride : Int
  groups : Int
  padding : Int
  dilation : Int
deriving DecidableEq, Repr

/-- Configuration of a `paddle.nn.BatchNorm` as instantiated in this file
(epsilon and momentum are fixed constants everywhere and elided). -/
structure BatchNormCfg where
  num_channels : Int
  act : Option String
deriving DecidableEq, Repr

/-- Symbolic tensor expressions: the graph a forward pass builds. -/
inductive Tensor where
  | input : Tensor
  | relu : Tensor → Tensor
  | conv2d : Conv2DCfg → Tensor → Tensor
  | batch_norm : BatchNormCfg → Tensor → Tensor
  | add : Tensor → Tensor → Tensor
deriving DecidableEq, Repr

/-- Embedding of `ConvBNLayer` (lines 80-110): a bias-free conv followed by batch norm
carrying the activation. -/
structure ConvBNLayer where
  conv : Conv2DCfg
  bn : BatchNormCfg
deriving DecidableEq, Repr

/-- Embedding of `ConvBNLayer.__init__` (lines 81-107). -/
def ConvBNLayer.make (input_channels output_channels filter_size stride padding : Int)
    (act : Option String) : ConvBNLayer :=
  { conv := { in_channels := input_channels, out_channels := output_channels,
              kernel_size := filter_size, stride := stride, groups := 1,
              padding := padding, dilation := 1 },
    bn := { num_channels := output_channels, act := act } }

/-- Embedding of `ConvBNLayer.forward` (lines 109-110). -/
def ConvBNLayer.forward (l : ConvBNLayer) (inputs : Tensor) : Tensor :=
  .batch_norm l.bn (.conv2d l.conv inputs)

/-- Embedding of `Seperate_Conv` (lines 113-167): depthwise conv + BN, then pointwise
conv + BN; both BNs carry the same activation `act`. -/
structure Seperate_Conv where
  conv1 : Conv2DCfg
  bn1 : BatchNormCfg
  conv2 : Conv2DCfg
  bn2 : BatchNormCfg
deriving DecidableEq, Repr

/-- Embedding of `Seperate_Conv.__init__` (lines 114-160). Padding of the depthwise
conv is `filter // 2 * dilation`. -/
def Seperate_Conv.make (input_channels output_channels stride filter dilation : Int)
    (act : Option String) : Seperate_Conv :=
  { conv1 := { in_channels := input_channels, out_channels := input_channels,
               kernel_size := filter, stride := stride, groups := input_channels,
               padding := Int.fdiv filter 2 * dilation, dilation := dilation },
    bn1 := { num_channels := input_channels, act := act },
    conv2 := { in_channels := input_channels, out_channels := output_channels,
               kernel_size := 1, stride := 1, groups := 1, padding := 0, dilation := 1 },
    bn2 := { num_channels := output_channels, act := act } }

/-- Embedding of `Seperate_Conv.forward` (lines 162-167). -/
def Seperate_Conv.forward (c : Seperate_Conv) (inputs : Tensor) : Tensor :=
  .batch_norm c.bn2 (.conv2d c.conv2 (.batch_norm c.bn1 (.conv2d c.conv1 inputs)))

/-- Embedding of `Xception_Block` (lines 170-267): three separable convolutions plus an
optional shortcut (`_short` exists only when `has_skip and skip_conv`). -/
structure Xception_Block where
  has_skip : Bool
  skip_conv : Bool
  activation_fn_in_separable_conv : Bool
  conv1 : Seperate_Conv
  conv2 : Seperate_Conv
  conv3 : Seperate_Conv
  short : Option ConvBNLayer
deriving DecidableEq, Repr

/-- Embedding of `Xception_Block.__init__` (lines 171-246).  `output_channels`,
`filter_size` and `strides` are normalized by `check_data` with
`repeat_number = 3`; in the embedded-activation mode each separable conv
gets `act="relu"`, otherwise no act.  The shortcut uses
`output_channels[-1]` and `strides[-1]`. -/
def Xception_Block.make (input_channels : Int)
    (output_channels filter_size strides : PyData) (dilation : Int)
    (skip_conv has_skip activation_fn_in_separable_conv : Bool) :
    Option Xception_Block := do
  let repeat_number := 3
  let oc ← check_data output_channels repeat_number
  let fs ← check_data filter_size repeat_number
  let st ← check_data strides repeat_number
  match oc, fs, st with
  | [oc0, oc1, oc2], [fs0, fs1, fs2], [st0, st1, st2] => do
    let o0 ← oc0.asInt
    let o1 ← oc1.asInt
    let o2 ← oc2.asInt
    let f0 ← fs0.asInt
    let f1 ← fs1.asInt
    let f2 ← fs2.asInt
    let s0 ← st0.asInt
    let s1 ← st1.asInt
    let s2 ← st2.asInt
    let act : Option String :=
      if activation_fn_in_separable_conv then some "relu" else none
    some
      { has_skip := has_skip, skip_conv := skip_conv,
        activation_fn_in_separable_conv := activation_fn_in_separable_conv,
        conv1 := Seperate_Conv.make input_channels o0 s0 f0 dilation act,
        conv2 := Seperate_Conv.make o0 o1 s1 f1 dilation act,
        conv3 := Seperate_Conv.make o1 o2 s2 f2 dilation act,
        short := if has_skip && skip_conv then
            some (ConvBNLayer.make input_channels o2 1 s2 0 none)
          else none }
  | _, _, _ => none

/-- Embedding of `Xception_Block.forward` (lines 248-267).  Pre-activation mode applies
an explicit ReLU before each separable conv; embedded mode chains them
directly.  Accessing a `_short` that was never constructed is a Python
`AttributeError`, embedded as `none`. -/
def Xception_Block.forward (b : Xception_Block) (inputs : Tensor) : Option Tensor :=
  let x :=
    if !b.activation_fn_in_separable_conv then
      b.conv3.forward (.relu (b.conv2.forward (.relu (b.conv1.forward (.relu inputs)))))
    else
      b.conv3.forward (b.conv2.forward (b.conv1.forward inputs))
  if b.has_skip then
    if b.skip_conv then
      match b.short with
      | some sc => some (.add x (sc.forward inputs))
      | none => none
    else
      some (.add x inputs)
  else
    some x

/-- Shorthand for a Python list of ints. -/
def ilist (xs : List Int) : PyData :=
  .list (xs.map .int)

/-- One variant's stage table: each stage is the Python tuple
`(block_count, strides, channels)`. -/
structure BottleneckParams where
  entry_flow : Nat × PyData × PyData
  middle_flow : Nat × PyData × PyData
  exit_flow : Nat × PyData × PyData
deriving DecidableEq

/-- Embedding of `gen_bottleneck_params` (lines 54-77); the `raise Exception` for an
unsupported name is embedded as `none`. -/
def gen_bottleneck_params (backbone : String) : Option BottleneckParams :=
  if backbone = "xception_65" then
    some { entry_flow := (3, ilist [2, 2, 2], ilist [128, 256, 728]),
           middle_flow := (16, .int 1, .int 728),
           exit_flow := (2, ilist [2, 1],
             .list [ilist [728, 1024, 1024], ilist [1536, 1536, 2048]]) }
  else if backbone = "xception_41" then
    some { entry_flow := (3, ilist [2, 2, 2], ilist [128, 256, 728]),
           middle_flow := (8, .int 1, .int 728),
           exit_flow := (2, ilist [2, 1],
             .list [ilist [728, 1024, 1024], ilist [1536, 1536, 2048]]) }
  else if backbone = "xception_71" then
    some { entry_flow := (5, ilist [2, 1, 2, 1, 2], ilist [128, 256, 256, 728, 728]),
           middle_flow := (16, .int 1, .int 728),
           exit_flow := (2, ilist [2, 1],
             .list [ilist [728, 1024, 1024], ilist [1536, 1536, 2048]]) }
  else
    none

/-- The entry-flow loop of `XceptionDeeplab.__init__` (lines 307-318),
iterated over the index list `range(block_num)`.  `self_stride` is the
value of `self.stride` during the loop (it is assigned only after the
loop, so it stays 2 throughout): line 315 passes `[1, 1, self.stride]` to
the block, not the clipped local `stride`, which is used only for the
accumulator update.  Returns the constructed blocks, the final
accumulator, and the trace of accumulator values after each update. -/
def entry_loop (strides chns : List PyData) (self_stride output_stride : Int) :
    List Nat → Int → Option (List Xception_Block × Int × List Int)
  | [], s => some ([], s, [])
  | i :: rest, s => do
    let sti ← getI strides i
    let stride := clip_stride s sti output_stride
    let input_channels ← if i = 0 then some (64 : Int) else getI chns (i - 1)
    let ci ← chns[i]?
    let block ← Xception_Block.make input_channels ci (.int 3)
      (.list [.int 1, .int 1, .int self_stride]) 1 true true false
    let s2 := s * stride
    let (blocks, sf, trace) ← entry_loop strides chns self_stride output_stride rest s2
    some (block :: blocks, sf, s2 :: trace)

/-- The middle-flow loop of `XceptionDeeplab.__init__` (lines 328-340):
blocks are built with `input_channels=728`, `output_channels=728`,
`strides=[1, 1, self.strides[i]]` (the requested stride, not the clipped
one) and `skip_conv=False`. -/
def middle_loop (strides : List PyData) (output_stride : Int) :
    List Nat → Int → Option (List Xception_Block × Int × List Int)
  | [], s => some ([], s, [])
  | i :: rest, s => do
    let sti ← getI strides i
    let stride := clip_stride s sti output_stride
    let block ← Xception_Block.make 728 (.int 728) (.int 3)
      (.list [.int 1, .int 1, .int sti]) 1 false true false
    let s2 := s * stride
    let (blocks, sf, trace) ← middle_loop strides output_stride rest s2
    some (block :: blocks, sf, s2 :: trace)

/-- The fully resolved `XceptionDeeplab` model.  `s_trace` is a ghost
field recording the stride accumulator: its initial value 2 followed by
its value after every update `s = s * stride`. -/
structure XceptionDeeplabModel where
  conv1 : ConvBNLayer
  conv2 : ConvBNLayer
  entry_flow : List Xception_Block
  middle_flow : List Xception_Block
  exit_flow_1 : Xception_Block
  exit_flow_2 : Xception_Block
  stride : Int
  s_trace : List Int
  fc_in : Int
  class_dim : Int
deriving DecidableEq

/-- Result of one looping stage: its blocks, the accumulator after the
loop, and the accumulator values after each update. -/
structure StageResult where
  blocks : List Xception_Block
  s : Int
  trace : List Int

/-- Lines 294-319: normalize the entry-flow table row and run the
entry-flow loop (`self.stride = 2`, `self.output_stride = 32`). -/
def entry_stage (bp : BottleneckParams) (self_stride output_stride : Int) :
    Option StageResult := do
  let block_num := bp.entry_flow.1
  let strides ← check_data bp.entry_flow.2.1 block_num
  let chns ← check_data bp.entry_flow.2.2 block_num
  let r ← entry_loop strides chns self_stride output_stride (List.range block_num) self_stride
  some { blocks := r.1, s := r.2.1, trace := r.2.2 }

/-- Lines 321-341: normalize the middle-flow table row and run the
middle-flow loop starting from the accumulator left by the entry flow. -/
def middle_stage (bp : BottleneckParams) (output_stride s1 : Int) :
    Option StageResult := do
  let block_num := bp.middle_flow.1
  let strides ← check_data bp.middle_flow.2.1 block_num
  let _chns ← check_data bp.middle_flow.2.2 block_num
  let r ← middle_loop strides output_stride (List.range block_num) s1
  some { blocks := r.1, s := r.2.1, trace := r.2.2 }

/-- Result of the exit flow (lines 343-367): its two explicitly built
blocks, the final accumulator, the accumulator trace, and `chns[1][-1]`
(the linear layer's input feature count, line 372). -/
structure ExitResult where
  exit1 : Xception_Block
  exit2 : Xception_Block
  s : Int
  trace : List Int
  fc_in : Int

/-- Lines 343-367 plus the `chns[1][-1]` lookup of line 372: the two
exit-flow blocks, built individually; block 1 with defaults, block 2 with
`dilation=2`, `has_skip=False` and embedded activations. -/
def exit_stage (bp : BottleneckParams) (output_stride s2 : Int) : Option ExitResult := do
  let block_num := bp.exit_flow.1
  let strides ← check_data bp.exit_flow.2.1 block_num
  let chns ← check_data bp.exit_flow.2.2 block_num
  let st0 ← getI strides 0
  let stride_e1 := clip_stride s2 st0 output_stride
  let c0 ← chns[0]?
  let exit1 ← Xception_Block.make 728 c0 (.int 3)
    (.list [.int 1, .int 1, .int stride_e1]) 1 true true false
  let s3 := s2 * stride_e1
  let st1 ← getI strides 1
  let stride_e2 := clip_stride s3 st1 output_stride
  let c0last ← c0.lastInt
  let c1 ← chns[1]?
  let exit2 ← Xception_Block.make c0last c1 (.int 3)
    (.list [.int 1, .int 1, .int stride_e2]) 2 true false true
  let s4 := s3 * stride_e2
  let fc_in ← c1.lastInt
  some { exit1 := exit1, exit2 := exit2, s := s4, trace := [s3, s4], fc_in := fc_in }

/-- Embedding of `XceptionDeeplab.__init__` (lines 271-375), composed from the three
stage builders above. -/
def XceptionDeeplab.make (backbone : String) (class_dim : Int) :
    Option XceptionDeeplabModel := do
  let bp ← gen_bottleneck_params backbone
  let conv1 := ConvBNLayer.make 3 32 3 2 1 (some "relu")
  let conv2 := ConvBNLayer.make 32 64 3 1 1 (some "relu")
  let self_stride : Int := 2
  let output_stride : Int := 32
  let entry ← entry_stage bp self_stride output_stride
  let middle ← middle_stage bp output_stride entry.s
  let ex ← exit_stage bp output_stride middle.s
  some { conv1 := conv1, conv2 := conv2, entry_flow := entry.blocks,
         middle_flow := middle.blocks, exit_flow_1 := ex.exit1, exit_flow_2 := ex.exit2,
         stride := ex.s, s_trace := self_stride :: (entry.trace ++ middle.trace ++ ex.trace),
         fc_in := ex.fc_in, class_dim := class_dim }

/-- Embedding of `MODEL_URLS` (lines 24-25). -/
def MODEL_URLS : List (String × String) :=
  [("Xception41_deeplab",
    "https://paddle-imagenet-models-name.bj.bcebos.com/dygraph/Xception41_deeplab_pretrained.pdparams"),
   ("Xception65_deeplab",
    "https://paddle-imagenet-models-name.bj.bcebos.com/dygraph/Xception65_deeplab_pretrained.pdparams")]

/-- Embedding of `__all__ = list(MODEL_URLS.keys())` (line 27). -/
def all_exports : List String :=
  MODEL_URLS.map Prod.fst

/-- A Python value passed as `pretrained`: the embedding distinguishes
the singletons `True`/`False` from ints (Python `1 is True` is false even
though `1 == True`), mirroring the `is` comparisons in the source. -/
inductive PyValue where
  | bool : Bool → PyValue
  | str : String → PyValue
  | int : Int → PyValue
  | pynone : PyValue
deriving DecidableEq

/-- The externally visible effect of `_load_pretrained`: which loader
collaborator was invoked, with which arguments. -/
inductive LoadAction where
  | no_load : LoadAction
  | from_url : String → Bool → LoadAction
  | from_path : String → LoadAction
deriving DecidableEq

/-- Embedding of `_load_pretrained` (lines 393-403); the `RuntimeError` branch is
embedded as `none`. -/
def _load_pretrained (pretrained : PyValue) (model_url : String) (use_ssld : Bool) :
    Option LoadAction :=
  match pretrained with
  | .bool false => some .no_load
  | .bool true => some (.from_url model_url use_ssld)
  | .str s => some (.from_path s)
  | _ => none

/-- Embedding of `Xception41_deeplab` (lines 406-409): build the model, then dispatch
weight loading; a dict lookup failure or load error propagates. -/
def Xception41_deeplab (pretrained : PyValue) (use_ssld : Bool) (class_dim : Int) :
    Option (XceptionDeeplabModel × LoadAction) := do
  let model ← XceptionDeeplab.make "xception_41" class_dim
  let url ← MODEL_URLS.lookup "Xception41_deeplab"
  let action ← _load_pretrained pretrained url use_ssld
  some (model, action)

/-- Embedding of `Xception65_deeplab` (lines 412-415). -/
def Xception65_deeplab (pretrained : PyValue) (use_ssld : Bool) (class_dim : Int) :
    Option (XceptionDeeplabModel × LoadAction) := do
  let model ← XceptionDeeplab.make "xception_65" class_dim
  let url ← MODEL_URLS.lookup "Xception65_deeplab"
  let action ← _load_pretrained pretrained url use_ssld
  some (model, action)

/-- The last internal stride of each entry-flow block: the depthwise
stride of its third separable conv (`strides[2]` of the block). -/
def entry_last_strides (m : XceptionDeeplabModel) : List Int :=
  m.entry_flow.map (fun b => b.conv3.conv1.stride)

/-- Modelled from the spec: the per-block effective (clipped) strides the
claims describe — starting from accumulator `s`, a requested stride is
kept when `s * stride ≤ os` and replaced by 1 otherwise, and the kept
value is multiplied into the accumulator.  Defined for comparison with
what the code actually passes to each block. -/
def spec_effective_strides (s os : Int) : List Int → List Int
  | [] => []
  | st :: rest =>
    let e := if s * st ≤ os then st else 1
    e :: spec_effective_strides (s * e) os rest

/-!
## Claim theorems
-/

/-- C1: the claim says each `XceptionBlock` receives internal strides
`[1, 1, e]` with `e` the effective (clipped) stride of that block, so
that `xception_71`'s entry flow would get last internal strides
`[2, 1, 2, 1, 2]`.  The code instead passes `self.stride` — the constant
2 during the entry loop — so all five entry blocks of `xception_71` are
built with last internal stride 2, while the effective strides of the
claim evaluate to `[2, 1, 2, 1, 2]`. -/
theorem C1_entry_strides_code_bug :
    (XceptionDeeplab.make "xception_71" 1000).map entry_last_strides =
      some [2, 2, 2, 2, 2] ∧
    spec_effective_strides 2 32 [2, 1, 2, 1, 2] = [2, 1, 2, 1, 2] ∧
    (([2, 2, 2, 2, 2] : List Int) == [2, 1, 2, 1, 2]) = false := by
  refine ⟨by decide, by decide, by decide⟩

/-- C2: for each of the three supported backbones the construction
succeeds and every value of the stride accumulator recorded during
construction (its initial value 2 and its value after every update) is
at most 32; moreover, the clipping rule replaces a requested stride by 1
whenever multiplying it into the accumulator would exceed 32. -/
theorem C2_construction_succeeds_and_stride_bounded :
    (["xception_41", "xception_65", "xception_71"].all (fun b =>
        match XceptionDeeplab.make b 1000 with
        | some m => m.s_trace.all (fun s => decide (s ≤ 32))
        | none => false)) = true ∧
    ∀ s st : Int, 32 < s * st → clip_stride s st 32 = 1 := by
  refine ⟨by decide, ?_⟩
  intro s st h
  have hn : ¬ (s * st ≤ 32) := not_le.mpr h
  simp [clip_stride, check_stride, hn]

/-- Witness for C2 at concrete inputs: an accumulator of 20 with a
requested stride of 2 would reach 40 > 32, so the stride is clipped
to 1. -/
theorem C2_witness : clip_stride 20 2 32 = 1 :=
  C2_construction_succeeds_and_stride_bounded.2 20 2 (by decide)

/-- C3: `xception_65` yields 3 entry-flow and 16 middle-flow blocks,
`xception_41` yields 3 and 8, the exit flow has exactly 2 blocks, and
these stage parameters are exactly the rows of the per-variant table
returned by `gen_bottleneck_params`. -/
theorem C3_stage_block_counts :
    (XceptionDeeplab.make "xception_65" 1000).map
        (fun m => (m.entry_flow.length, m.middle_flow.length)) = some (3, 16) ∧
    (XceptionDeeplab.make "xception_41" 1000).map
        (fun m => (m.entry_flow.length, m.middle_flow.length)) = some (3, 8) ∧
    gen_bottleneck_params "xception_65" =
      some { entry_flow := (3, ilist [2, 2, 2], ilist [128, 256, 728]),
             middle_flow := (16, .int 1, .int 728),
             exit_flow := (2, ilist [2, 1],
               .list [ilist [728, 1024, 1024], ilist [1536, 1536, 2048]]) } ∧
    gen_bottleneck_params "xception_41" =
      some { entry_flow := (3, ilist [2, 2, 2], ilist [128, 256, 728]),
             middle_flow := (8, .int 1, .int 728),
             exit_flow := (2, ilist [2, 1],
               .list [ilist [728, 1024, 1024], ilist [1536, 1536, 2048]]) } ∧
    (gen_bottleneck_params "xception_65").map (fun bp => bp.exit_flow.1) = some 2 ∧
    (gen_bottleneck_params "xception_41").map (fun bp => bp.exit_flow.1) = some 2 := by
  refine ⟨by decide, by decide, by decide, by decide, by decide, by decide⟩

/-- C5: `check_data` with count 3 broadcasts an int scalar to `[v, v, v]`
unconditionally, accepts a 3-element list unchanged, and rejects a
4-element list; consequently `Xception_Block` construction with a
4-element `output_channels` fails before any layer configuration is
produced. -/
theorem C5_check_data_normalization :
    (∀ v : Int, check_data (.int v) 3 = some [.int v, .int v, .int v]) ∧
    (∀ xs : List PyData, xs.length = 3 → check_data (.list xs) 3 = some xs) ∧
    check_data (.list [.int 1, .int 2, .int 3, .int 4]) 3 = none ∧
    Xception_Block.make 64 (.list [.int 7, .int 7, .int 7, .int 7]) (.int 3) (.int 1)
      1 true true false = none := by
  refine ⟨fun v => rfl, fun xs h => by simp [check_data, h], by decide, by decide⟩

/-- Witness for C5 at concrete inputs: the scalar 9 is broadcast and the
3-element list `[4, 5, 6]` is accepted unchanged. -/
theorem C5_witness :
    check_data (.int 9) 3 = some [.int 9, .int 9, .int 9] ∧
    check_data (.list [.int 4, .int 5, .int 6]) 3 =
      some [.int 4, .int 5, .int 6] :=
  ⟨C5_check_data_normalization.1 9,
   C5_check_data_normalization.2.1 [.int 4, .int 5, .int 6] (by decide)⟩

/-- C7: for every supported backbone, exit-flow block 2 has
`has_skip = False`, dilation 2 in all three separable convs, embedded
activations (`act = "relu"` inside the separable convs), last internal
stride 1, and final output channel count 2048 = `chns[1][-1]` from the
table, which is exactly the linear layer's input feature count. -/
theorem C7_exit_flow_block2 :
    (["xception_41", "xception_65", "xception_71"].all (fun b =>
      (match XceptionDeeplab.make b 1000 with
       | some m =>
           (!m.exit_flow_2.has_skip) &&
           m.exit_flow_2.activation_fn_in_separable_conv &&
           (m.exit_flow_2.conv1.conv1.dilation == 2) &&
           (m.exit_flow_2.conv2.conv1.dilation == 2) &&
           (m.exit_flow_2.conv3.conv1.dilation == 2) &&
           (m.exit_flow_2.conv1.bn1.act == some "relu") &&
           (m.exit_flow_2.conv3.bn2.act == some "relu") &&
           (m.exit_flow_2.conv3.conv1.stride == 1) &&
           (m.exit_flow_2.conv3.conv2.out_channels == 2048) &&
           (m.fc_in == 2048)
       | none => false) &&
      (decide (((gen_bottleneck_params b).bind
          (fun bp => (bp.exit_flow.2.2.get 1).bind PyData.lastInt)) = some 2048)))) =
      true := by
  decide

/-- C4: `_load_pretrained` dispatch, also as reached through the factory
functions: `False` invokes no loader, `True` invokes the URL loader with
the variant's registered URL and the `use_ssld` flag, a string invokes
the local-path loader with that string, and any other value fails before
any loader is invoked. -/
theorem C4_load_pretrained_dispatch :
    ∀ (url path : String) (ssld : Bool) (n : Int) (cd : Int),
      _load_pretrained (.bool false) url ssld = some .no_load ∧
      _load_pretrained (.bool true) url ssld = some (.from_url url ssld) ∧
      _load_pretrained (.str path) url ssld = some (.from_path path) ∧
      _load_pretrained (.int n) url ssld = none ∧
      _load_pretrained .pynone url ssld = none ∧
      (Xception41_deeplab (.bool true) ssld cd).map Prod.snd =
        some (.from_url "https://paddle-imagenet-models-name.bj.bcebos.com/dygraph/Xception41_deeplab_pretrained.pdparams" ssld) ∧
      (Xception65_deeplab (.bool true) ssld cd).map Prod.snd =
        some (.from_url "https://paddle-imagenet-models-name.bj.bcebos.com/dygraph/Xception65_deeplab_pretrained.pdparams" ssld) ∧
      (Xception41_deeplab (.str path) ssld cd).map Prod.snd = some (.from_path path) ∧
      (Xception41_deeplab (.bool false) ssld cd).map Prod.snd = some .no_load ∧
      (Xception41_deeplab (.int n) ssld cd).map Prod.snd = none :=
  fun _ _ _ _ _ => ⟨rfl, rfl, rfl, rfl, rfl, rfl, rfl, rfl, rfl, rfl⟩

/-- C6: in pre-activation mode the main path is ReLU, separable conv 1,
ReLU, separable conv 2, ReLU, separable conv 3 with no activation node
inside the separable convs; with a skip, the output adds either the
learned 1x1 projection of the input or the raw input, and without a skip
it is the main path alone; in embedded mode the three separable convs are
chained directly; and `Xception_Block.make` in pre-activation mode
configures every separable conv with no activation and the shortcut with
the last configured stride and last output-channel value. -/
theorem C6_forward_modes :
    (∀ (c1 c2 c3 : Seperate_Conv) (sc : ConvBNLayer) (x : Tensor),
      Xception_Block.forward
          { has_skip := true, skip_conv := true, activation_fn_in_separable_conv := false,
            conv1 := c1, conv2 := c2, conv3 := c3, short := some sc } x =
        some (.add (.batch_norm c3.bn2 (.conv2d c3.conv2 (.batch_norm c3.bn1 (.conv2d c3.conv1 (.relu (.batch_norm c2.bn2 (.conv2d c2.conv2 (.batch_norm c2.bn1 (.conv2d c2.conv1 (.relu (.batch_norm c1.bn2 (.conv2d c1.conv2 (.batch_norm c1.bn1 (.conv2d c1.conv1 (.relu x))))))))))))))) (.batch_norm sc.bn (.conv2d sc.conv x)))) ∧
    (∀ (c1 c2 c3 : Seperate_Conv) (sh : Option ConvBNLayer) (x : Tensor),
      Xception_Block.forward
          { has_skip := true, skip_conv := false, activation_fn_in_separable_conv := false,
            conv1 := c1, conv2 := c2, conv3 := c3, short := sh } x =
        some (.add (.batch_norm c3.bn2 (.conv2d c3.conv2 (.batch_norm c3.bn1 (.conv2d c3.conv1 (.relu (.batch_norm c2.bn2 (.conv2d c2.conv2 (.batch_norm c2.bn1 (.conv2d c2.conv1 (.relu (.batch_norm c1.bn2 (.conv2d c1.conv2 (.batch_norm c1.bn1 (.conv2d c1.conv1 (.relu x))))))))))))))) x)) ∧
    (∀ (c1 c2 c3 : Seperate_Conv) (sh : Option ConvBNLayer) (sk : Bool) (x : Tensor),
      Xception_Block.forward
          { has_skip := false, skip_conv := sk, activation_fn_in_separable_conv := false,
            conv1 := c1, conv2 := c2, conv3 := c3, short := sh } x =
        some (.batch_norm c3.bn2 (.conv2d c3.conv2 (.batch_norm c3.bn1 (.conv2d c3.conv1 (.relu (.batch_norm c2.bn2 (.conv2d c2.conv2 (.batch_norm c2.bn1 (.conv2d c2.conv1 (.relu (.batch_norm c1.bn2 (.conv2d c1.conv2 (.batch_norm c1.bn1 (.conv2d c1.conv1 (.relu x)))))))))))))))) ∧
    (∀ (c1 c2 c3 : Seperate_Conv) (sh : Option ConvBNLayer) (sk : Bool) (x : Tensor),
      Xception_Block.forward
          { has_skip := false, skip_conv := sk, activation_fn_in_separable_conv := true,
            conv1 := c1, conv2 := c2, conv3 := c3, short := sh } x =
        some (.batch_norm c3.bn2 (.conv2d c3.conv2 (.batch_norm c3.bn1 (.conv2d c3.conv1 (.batch_norm c2.bn2 (.conv2d c2.conv2 (.batch_norm c2.bn1 (.conv2d c2.conv1 (.batch_norm c1.bn2 (.conv2d c1.conv2 (.batch_norm c1.bn1 (.conv2d c1.conv1 x))))))))))))) ∧
    (∀ (ic o0 o1 o2 f0 f1 f2 s0 s1 s2 dil : Int) (sk hs : Bool),
      Xception_Block.make ic (.list [.int o0, .int o1, .int o2])
          (.list [.int f0, .int f1, .int f2]) (.list [.int s0, .int s1, .int s2])
          dil sk hs false =
        some { has_skip := hs, skip_conv := sk, activation_fn_in_separable_conv := false,
               conv1 := Seperate_Conv.make ic o0 s0 f0 dil none,
               conv2 := Seperate_Conv.make o0 o1 s1 f1 dil none,
               conv3 := Seperate_Conv.make o1 o2 s2 f2 dil none,
               short := if hs && sk then some (ConvBNLayer.make ic o2 1 s2 0 none)
                 else none }) :=
  ⟨fun _ _ _ _ _ => rfl, fun _ _ _ _ _ => rfl, fun _ _ _ _ _ _ => rfl,
   fun _ _ _ _ _ _ => rfl, fun _ _ _ _ _ _ _ _ _ _ _ _ _ => rfl⟩

/-- C8 counterexample: the module's export list, built from
`MODEL_URLS`, names factories for exactly the 41 and 65 variants — there
is no `Xception71_deeplab` factory and no registered URL for it, so the
claim that all three variants have a factory is false. -/
theorem C8_counterexample :
    all_exports = ["Xception41_deeplab", "Xception65_deeplab"] ∧
    all_exports.contains "Xception71_deeplab" = false ∧
    MODEL_URLS.lookup "Xception71_deeplab" = none := by
  refine ⟨by decide, by decide, by decide⟩

/-- C8 (amended): the module exposes factory functions for exactly the
two variants 41 and 65; each constructs the corresponding
`XceptionDeeplab` model (with the caller's `class_dim`) and optionally
loads pretrained weights from the variant's registered URL or a local
path. -/
theorem C8_two_factory_functions :
    ∀ (path : String) (ssld : Bool) (cd : Int),
      all_exports.length = 2 ∧
      (Xception41_deeplab (.bool false) ssld cd).map Prod.snd = some .no_load ∧
      (Xception41_deeplab (.bool true) ssld cd).map Prod.snd =
        some (.from_url "https://paddle-imagenet-models-name.bj.bcebos.com/dygraph/Xception41_deeplab_pretrained.pdparams" ssld) ∧
      (Xception41_deeplab (.str path) ssld cd).map Prod.snd = some (.from_path path) ∧
      (Xception41_deeplab (.bool false) ssld cd).map (fun r => r.1.class_dim) = some cd ∧
      (Xception65_deeplab (.bool false) ssld cd).map Prod.snd = some .no_load ∧
      (Xception65_deeplab (.bool true) ssld cd).map Prod.snd =
        some (.from_url "https://paddle-imagenet-models-name.bj.bcebos.com/dygraph/Xception65_deeplab_pretrained.pdparams" ssld) ∧
      (Xception65_deeplab (.str path) ssld cd).map Prod.snd = some (.from_path path) ∧
      (Xception65_deeplab (.bool false) ssld cd).map (fun r => r.1.class_dim) = some cd :=
  fun _ _ _ => ⟨rfl, rfl, rfl, rfl, rfl, rfl, rfl, rfl, rfl⟩

/-- C9: for every backbone name other than the three supported ones,
`gen_bottleneck_params` fails, and hence `XceptionDeeplab` construction
fails (the table lookup is its first step, before any layer is built). -/
theorem C9_unsupported_backbone :
    ∀ (b : String) (cd : Int),
      b ≠ "xception_41" → b ≠ "xception_65" → b ≠ "xception_71" →
      gen_bottleneck_params b = none ∧ XceptionDeeplab.make b cd = none := by
  intro b cd h41 h65 h71
  have hg : gen_bottleneck_params b = none := by
    simp [gen_bottleneck_params, h41, h65, h71]
  exact ⟨hg, by simp [XceptionDeeplab.make, hg]⟩

/-- Witness for C9 at a concrete input: `resnet50` is rejected. -/
theorem C9_witness :
    gen_bottleneck_params "resnet50" = none ∧
    XceptionDeeplab.make "resnet50" 1000 = none :=
  C9_unsupported_backbone "resnet50" 1000 (by decide) (by decide) (by decide)

/-- C10: `_load_pretrained` compares `pretrained` to `True` and `False`
by identity, so the ints 0 and 1 — equal to the booleans under `==` but
not identical to them — and every other non-bool, non-string value are
rejected with the fatal error, invoking no loader; the bool singletons
themselves dispatch normally. -/
theorem C10_identity_not_equality :
    ∀ (url : String) (ssld : Bool),
      _load_pretrained (.int 0) url ssld = none ∧
      _load_pretrained (.int 1) url ssld = none ∧
      (∀ n : Int, _load_pretrained (.int n) url ssld = none) ∧
      _load_pretrained .pynone url ssld = none ∧
      _load_pretrained (.bool false) url ssld = some .no_load ∧
      _load_pretrained (.bool true) url ssld = some (.from_url url ssld) :=
  fun _ _ => ⟨rfl, rfl, fun _ => rfl, rfl, rfl, rfl⟩
